import Mathlib

/-!
Shallow embedding of the core of `nsc_web_co2_streamlit.py`, the NSC web
carbon-footprint calculator, together with theorems settling the spec claims.

Modelling conventions:
* Python floats are modelled as exact rationals (`ℚ`).
* Python ints are `ℤ` (byte counts coming from `int(...)` on a header can be
  negative, so `ℤ` rather than `ℕ` is the faithful choice).
* Python strings are Lean `String`s; the string algorithms (`split`, `strip`,
  `startswith`, substring test, `int(...)`) are embedded as structurally
  recursive functions over `List Char` so that concrete instances evaluate.
* Fallible I/O (HTTP requests, browser launches, body reads) is made explicit:
  each external call's outcome is an `Option`/`Except` argument of the
  embedded function, `none`/`.error` standing for a raised exception.
-/

/-! ### Embeddings of the Python string builtins used by the source -/

/-- Embeds Python `str.strip()` (ASCII whitespace, both ends). -/
def stripChars (l : List Char) : List Char :=
  ((l.dropWhile Char.isWhitespace).reverse.dropWhile Char.isWhitespace).reverse

/-- Embeds Python `s.split(",")`: comma-separated pieces, keeping empties, so
`splitCommaChars [] = [[]]` just as `"".split(",") == [""]`. -/
def splitCommaChars : List Char → List (List Char)
  | [] => [[]]
  | c :: rest =>
    match splitCommaChars rest with
    | [] => [[]]
    | g :: gs => if c = ',' then [] :: g :: gs else (c :: g) :: gs

/-- Embeds Python `s.split("=", 1)` restricted to the case `"=" in s`:
returns the pieces before and after the first `=`, `none` when there is no
`=` (i.e. when `len(s.split("=", 1)) == 1`). -/
def splitEqFirst : List Char → Option (List Char × List Char)
  | [] => none
  | c :: rest =>
    if c = '=' then some ([], rest)
    else
      match splitEqFirst rest with
      | none => none
      | some (a, b) => some (c :: a, b)

/-- Substring test on character lists: `true` iff `needle` occurs contiguously
inside `hay`. -/
def containsChars (needle : List Char) : List Char → Bool
  | [] => needle.isEmpty
  | c :: rest => needle.isPrefixOf (c :: rest) || containsChars needle rest

/-- Embeds Python `needle in hay` on strings (substring containment). -/
def pyIn (needle hay : String) : Bool :=
  containsChars needle.toList hay.toList

/-- Embeds Python `s.lower()` (ASCII case folding). -/
def pyLower (s : String) : String :=
  String.mk (s.toList.map Char.toLower)

/-- Embeds Python `s.startswith(pre)`. -/
def pyStartsWith (s pre : String) : Bool :=
  pre.toList.isPrefixOf s.toList

/-- Value of a nonempty all-digit character list, most significant first. -/
def digitsVal (l : List Char) : ℕ :=
  l.foldl (fun a c => a * 10 + (c.toNat - 48)) 0

/-- Parse of a nonempty run of ASCII digits; `none` otherwise. -/
def parseDigits (l : List Char) : Option ℕ :=
  if l ≠ [] ∧ l.all Char.isDigit then some (digitsVal l) else none

/-- Embeds Python's builtin `int(s)` on ASCII digit strings: surrounding
whitespace is stripped, an optional single leading sign is allowed, the rest
must be a nonempty digit run; `none` models the `ValueError` raised
otherwise. -/
def parsePyInt (l : List Char) : Option ℤ :=
  match stripChars l with
  | [] => none
  | c :: rest =>
    if c = '-' then (parseDigits rest).map (fun n => -(n : ℤ))
    else if c = '+' then (parseDigits rest).map (fun n => (n : ℤ))
    else (parseDigits (c :: rest)).map (fun n => (n : ℤ))

/-- Embeds the Python dict comprehension `{k.lower(): v for k, v in h.items()}`
on an association list of headers (keys lower-cased). -/
def pyLowerKeys (hs : List (String × String)) : List (String × String) :=
  hs.map (fun kv => (pyLower kv.1, kv.2))

/-! ### Emissions model (`bytes_to_mb_gb`, `co2_for_bytes`) -/

/-- Source constant `KWH_PER_GB = 0.81` (kWh of energy per GB transferred). -/
def KWH_PER_GB : ℚ := 0.81

/-- Source constant `GRID_INTENSITY = 442` (gCO2e per kWh). -/
def GRID_INTENSITY : ℚ := 442

/-- Embeds `bytes_to_mb_gb`: `(num_bytes / 1024**2, num_bytes / 1024**3)`. -/
def bytes_to_mb_gb (num_bytes : ℤ) : ℚ × ℚ :=
  ((num_bytes : ℚ) / 1024 ^ 2, (num_bytes : ℚ) / 1024 ^ 3)

/-- Embeds `co2_for_bytes` with explicit model constants:
`gb = num_bytes / 1024**3`, `energy_kwh = gb * kwh_per_gb`,
`co2_grams = energy_kwh * grid_intensity`. -/
def co2_for_bytes (num_bytes : ℤ) (kwh_per_gb grid_intensity : ℚ) : ℚ × ℚ :=
  ((bytes_to_mb_gb num_bytes).2 * kwh_per_gb,
   (bytes_to_mb_gb num_bytes).2 * kwh_per_gb * grid_intensity)

/-- `co2_for_bytes` at the source's default arguments
`kwh_per_gb = KWH_PER_GB`, `grid_intensity = GRID_INTENSITY`. -/
def co2_for_bytesDefaults (num_bytes : ℤ) : ℚ × ℚ :=
  co2_for_bytes num_bytes KWH_PER_GB GRID_INTENSITY

/-! ### Grading (`grade_from_co2`) -/

/-- The letter grades returned by `grade_from_co2`. -/
inductive Grade where
  | A | B | C | D | F
deriving DecidableEq, Repr

/-- Embeds `grade_from_co2`: chained inclusive upper-bound comparisons with
the strict thresholds 0.20 / 0.70 / 1.10 / 1.60. -/
def grade_from_co2 (co2_g : ℚ) : Grade :=
  if co2_g ≤ 0.20 then .A
  else if co2_g ≤ 0.70 then .B
  else if co2_g ≤ 1.10 then .C
  else if co2_g ≤ 1.60 then .D
  else .F

/-- The spec's band for each grade (inclusive upper bounds), used to state
mutual exclusivity and exhaustiveness of the grading bands. -/
def gradeBand (g : Grade) (x : ℚ) : Prop :=
  match g with
  | .A => x ≤ 0.20
  | .B => 0.20 < x ∧ x ≤ 0.70
  | .C => 0.70 < x ∧ x ≤ 1.10
  | .D => 1.10 < x ∧ x ≤ 1.60
  | .F => 1.60 < x

/-- Badness rank of a grade: `A` (best) is 0, `F` (worst) is 4.  A grade is
"at least as good" as another iff its rank is at most the other's. -/
def gradeRank (g : Grade) : ℕ :=
  match g with
  | .A => 0
  | .B => 1
  | .C => 2
  | .D => 3
  | .F => 4

/-! ### Cache heuristic (`_parse_max_age`, `should_refetch_on_return`) -/

/-- Loop body of `_parse_max_age` over the comma-split pieces: the first
stripped piece that starts with `"max-age"` and contains `"="` decides the
result (its right-hand side is given to `int(...)`, `none` on failure);
pieces starting with `"max-age"` but containing no `"="` are skipped. -/
def parseMaxAgeParts : List (List Char) → Option ℤ
  | [] => none
  | p :: rest =>
    let part := stripChars p
    if "max-age".toList.isPrefixOf part then
      match splitEqFirst part with
      | some pieces => parsePyInt pieces.2
      | none => parseMaxAgeParts rest
    else parseMaxAgeParts rest

/-- Embeds `_parse_max_age`: extract max-age seconds from a Cache-Control
header value, `none` if missing or unparseable. -/
def parse_max_age (cache_control : String) : Option ℤ :=
  parseMaxAgeParts (splitCommaChars cache_control.toList)

/-- The local `cc = headers.get("cache-control", "").lower()` of
`should_refetch_on_return` (`headers.get(k, "")` is
`(headers.lookup k).getD ""`). -/
def ccHeader (headers : List (String × String)) : String :=
  pyLower ((headers.lookup "cache-control").getD "")

/-- The local `pragma = headers.get("pragma", "").lower()` of
`should_refetch_on_return`. -/
def pragmaHeader (headers : List (String × String)) : String :=
  pyLower ((headers.lookup "pragma").getD "")

/-- Embeds `should_refetch_on_return` on a headers association list with
lower-cased keys. -/
def should_refetch_on_return (headers : List (String × String)) : Bool :=
  if pyIn "no-cache" (ccHeader headers) || pyIn "no-store" (ccHeader headers)
      || pyIn "must-revalidate" (ccHeader headers)
      || pyIn "max-age=0" (ccHeader headers) then true
  else if pyIn "no-cache" (pragmaHeader headers) then true
  else if ccHeader headers ≠ "" then
    match parse_max_age (ccHeader headers) with
    | some max_age => if 86400 ≤ max_age then false else true
    | none => true
  else true

/-! ### Resource metadata fetch (`fetch_resource_metadata`) -/

/-- The source pattern `length = 0; if cl: try: length = int(cl) except
ValueError: length = 0` applied to an optional raw `content-length` header
value: `int(cl)` when the header is present and truthy (nonempty), 0 on a
`ValueError`, 0 when absent or empty. -/
def clLengthOrZero (content_length : Option String) : ℤ :=
  match content_length with
  | some cl => if cl ≠ "" then (parsePyInt cl.toList).getD 0 else 0
  | none => 0

/-- The `length` computed by the HEAD block of `fetch_resource_metadata`
from already lower-cased headers (`cl = headers.get("content-length")`). -/
def contentLengthOrZero (headers : List (String × String)) : ℤ :=
  clLengthOrZero (headers.lookup "content-length")

/-- The `length` computed by the GET block of `fetch_resource_metadata`:
`int(cl)` when a truthy `content-length` header is present (0 on
`ValueError`), otherwise the downloaded body length `len(get_resp.content)`. -/
def getLengthOf (headers2 : List (String × String)) (body_len : ℕ) : ℤ :=
  match headers2.lookup "content-length" with
  | some cl => if cl ≠ "" then (parsePyInt cl.toList).getD 0 else (body_len : ℤ)
  | none => (body_len : ℤ)

/-- Embeds `fetch_resource_metadata`.  `head_resp` is the outcome of
`requests.head` (`none` = exception; `some hs` = response with headers `hs`),
`get_resp` the outcome of the fallback `requests.get` (`none` = exception;
`some (hs, body_len)` = headers and actual content length).  Returns
`(bytes, headers)` exactly as the source does: a raised request leaves
`length = 0` with whatever headers were already assigned. -/
def fetch_resource_metadata (head_resp : Option (List (String × String)))
    (get_resp : Option (List (String × String) × ℕ)) :
    ℤ × List (String × String) :=
  match head_resp with
  | none => (0, [])
  | some hh =>
    let headers := pyLowerKeys hh
    let length := contentLengthOrZero headers
    if length = 0 then
      match get_resp with
      | none => (0, headers)
      | some gr =>
        let headers2 := pyLowerKeys gr.1
        (getLengthOf headers2 gr.2, headers2)
    else (length, headers)

/-! ### Browser sampler per-response handler (`handle_response`) -/

/-- Embeds the byte contribution of one response inside
`measure_visit_playwright`'s `handle_response`: 0 for `data:`/`about:`
request URLs; otherwise `int(content-length)` when that header is truthy
(0 on `ValueError`), and whenever the resulting `length == 0` the actual
body length (`content_length` is `none` when the header is absent, `body`
is `none` when `response.body()` raises, contributing 0). -/
def handle_response_length (res_url : String) (content_length : Option String)
    (body : Option ℕ) : ℤ :=
  if pyStartsWith res_url "data:" || pyStartsWith res_url "about:" then 0
  else if clLengthOrZero content_length = 0 then
    match body with
    | some b => (b : ℤ)
    | none => 0
  else clLengthOrZero content_length

/-! ### HTTP-only sampler (`run_measurements_http`) and result records -/

/-- A discovered resource in the HTTP-only sampler: the dict
`{"url": ..., "bytes": ..., "headers": ...}` built per resource URL. -/
structure Resource where
  url : String
  bytes : ℤ
  headers : List (String × String)

/-- Embeds Python's builtin `sum(...)` over integers (left fold from 0). -/
def pySumInt (l : List ℤ) : ℤ :=
  l.foldl (· + ·) 0

/-- `first_bytes = sum(r["bytes"] for r in resources)`. -/
def first_bytes_of (resources : List Resource) : ℤ :=
  pySumInt (resources.map Resource.bytes)

/-- `second_bytes` before the safety floor:
`sum(r["bytes"] for r in resources if should_refetch_on_return(r["headers"]))`. -/
def second_bytes_raw (resources : List Resource) : ℤ :=
  pySumInt ((resources.filter
    (fun r => should_refetch_on_return r.headers)).map Resource.bytes)

/-- `second_bytes` after the safety floor: if `first_bytes > 0` and
`second_bytes < first_bytes * 0.1` then `int(first_bytes * 0.1)` (truncation
of a positive value, i.e. the floor), else unchanged. -/
def second_bytes_reported (resources : List Resource) : ℤ :=
  if 0 < first_bytes_of resources ∧
      ((second_bytes_raw resources : ℚ) < (first_bytes_of resources : ℚ) * 0.1)
  then ⌊(first_bytes_of resources : ℚ) * 0.1⌋
  else second_bytes_raw resources

/-- The `"model"` sub-dict of a measurement result (the `notes` string is
presentation-only and omitted). -/
structure ModelInfo where
  kwh_per_gb : ℚ
  grid_intensity_g_per_kwh : ℚ
  mode : String

/-- A `"first_visit"`/`"return_visit"` sub-dict. -/
structure VisitResult where
  bytes : ℤ
  mb : ℚ
  gb : ℚ
  energy_kwh : ℚ
  co2_g : ℚ

/-- A whole measurement result dict. -/
structure MeasurementResult where
  url : String
  model : ModelInfo
  first_visit : VisitResult
  return_visit : VisitResult

/-- The visit sub-dict the source builds from a byte total `b`:
`{"bytes": b, "mb": ..., "gb": ..., "energy_kwh": ..., "co2_g": ...}` using
`bytes_to_mb_gb` and `co2_for_bytes` at the default constants. -/
def mkVisitResult (b : ℤ) : VisitResult :=
  { bytes := b
    mb := (bytes_to_mb_gb b).1
    gb := (bytes_to_mb_gb b).2
    energy_kwh := (co2_for_bytesDefaults b).1
    co2_g := (co2_for_bytesDefaults b).2 }

/-- The result record built by `run_measurements_http` once the resource
list has been gathered (mode `"http-only"`). -/
def run_measurements_http_result (url : String) (resources : List Resource) :
    MeasurementResult :=
  { url := url
    model := { kwh_per_gb := KWH_PER_GB
               grid_intensity_g_per_kwh := GRID_INTENSITY
               mode := "http-only" }
    first_visit := mkVisitResult (first_bytes_of resources)
    return_visit := mkVisitResult (second_bytes_reported resources) }

/-- Embeds `run_measurements_http`.  `doc_fetch` is the combined outcome of
`requests.get(url)` plus asset discovery and per-resource metadata fetches
(which themselves never raise): `.error` when the initial document fetch
raises — the source re-raises it — and `.ok resources` otherwise. -/
def run_measurements_http (url : String)
    (doc_fetch : Except String (List Resource)) :
    Except String MeasurementResult :=
  match doc_fetch with
  | .error e => .error e
  | .ok resources => .ok (run_measurements_http_result url resources)

/-! ### Browser sampler result and orchestrator (`run_measurements`) -/

/-- Embeds `run_measurements_playwright`.  `browser` is the outcome of the
browser session: `.ok (first_bytes, second_bytes)` for the two sequential
visit totals, `.error` when launching/navigating raises (the exception
propagates out of the sampler). -/
def run_measurements_playwright (url : String)
    (browser : Except String (ℤ × ℤ)) : Except String MeasurementResult :=
  match browser with
  | .error e => .error e
  | .ok fs =>
    .ok { url := url
          model := { kwh_per_gb := KWH_PER_GB
                     grid_intensity_g_per_kwh := GRID_INTENSITY
                     mode := "playwright" }
          first_visit := mkVisitResult fs.1
          return_visit := mkVisitResult fs.2 }

/-- Embeds `run_measurements`: try the Playwright path; on any exception
fall back to the HTTP-only path (whose own document-fetch failure then
propagates). -/
def run_measurements (url : String) (browser : Except String (ℤ × ℤ))
    (doc_fetch : Except String (List Resource)) :
    Except String MeasurementResult :=
  match run_measurements_playwright url browser with
  | .ok r => .ok r
  | .error _ => run_measurements_http url doc_fetch

/-! ### Shared lemmas -/

lemma foldlAddAcc (l : List ℤ) : ∀ a : ℤ, l.foldl (· + ·) a = a + l.foldl (· + ·) 0 := by
  induction l with
  | nil => intro a; simp
  | cons b t ih =>
    intro a
    simp only [List.foldl_cons]
    rw [ih (a + b), ih (0 + b)]
    ring

lemma pySumInt_eq_sum (l : List ℤ) : pySumInt l = l.sum := by
  unfold pySumInt
  induction l with
  | nil => simp
  | cons a t ih =>
    rw [List.foldl_cons, foldlAddAcc, List.sum_cons, ih]
    ring

lemma filterMapSum_le (p : Resource → Bool) :
    ∀ rs : List Resource, (∀ r ∈ rs, 0 ≤ r.bytes) →
      ((rs.filter p).map Resource.bytes).sum ≤ (rs.map Resource.bytes).sum := by
  intro rs
  induction rs with
  | nil => intro _; simp
  | cons r t ih =>
    intro h
    have ht : ∀ x ∈ t, 0 ≤ x.bytes := fun x hx => h x (List.mem_cons_of_mem _ hx)
    have hr0 : 0 ≤ r.bytes := h r (List.mem_cons_self _ _)
    by_cases hp : p r = true
    · simp only [List.filter_cons, hp, if_true, List.map_cons, List.sum_cons]
      exact add_le_add_left (ih ht) _
    · rw [Bool.not_eq_true] at hp
      simp only [List.filter_cons, hp, Bool.false_eq_true, if_false, List.map_cons,
        List.sum_cons]
      linarith [ih ht]

/-! ### Claims about the emissions model and grading -/

/-- Claim C1: for every non-negative integer byte count `b` and constants `k`
(kWh per GB) and `g` (grid intensity), `co2_for_bytes b k g` is exactly the
pair `(b / 1024 ^ 3 * k, b / 1024 ^ 3 * k * g)`; at the default constants
`co2_for_bytes 0 = (0, 0)`; and both components are monotonically
non-decreasing in `b` whenever `k, g ≥ 0`. -/
theorem claim_C1 (b b1 b2 : ℕ) (k g : ℚ) :
    co2_for_bytes (b : ℤ) k g = ((b : ℚ) / 1024 ^ 3 * k, (b : ℚ) / 1024 ^ 3 * k * g)
    ∧ co2_for_bytesDefaults 0 = (0, 0)
    ∧ (0 ≤ k → 0 ≤ g → b1 ≤ b2 →
        (co2_for_bytes (b1 : ℤ) k g).1 ≤ (co2_for_bytes (b2 : ℤ) k g).1
        ∧ (co2_for_bytes (b1 : ℤ) k g).2 ≤ (co2_for_bytes (b2 : ℤ) k g).2) := by
  refine ⟨?_, ?_, ?_⟩
  · simp [co2_for_bytes, bytes_to_mb_gb]
  · simp [co2_for_bytesDefaults, co2_for_bytes, bytes_to_mb_gb]
  · intro hk hg hb
    have hbq : (b1 : ℚ) ≤ (b2 : ℚ) := by exact_mod_cast hb
    constructor
    · simp only [co2_for_bytes, bytes_to_mb_gb]
      push_cast
      gcongr
    · simp only [co2_for_bytes, bytes_to_mb_gb]
      push_cast
      gcongr

/-- Witness for C1 at `b = 5`, `b1 = 3`, `b2 = 4`, `k = 1`, `g = 2`. -/
theorem claim_C1_witness :
    (0 : ℚ) ≤ 1 ∧ (0 : ℚ) ≤ 2 ∧ (3 : ℕ) ≤ 4
    ∧ ((co2_for_bytes 3 1 2).1 ≤ (co2_for_bytes 4 1 2).1
        ∧ (co2_for_bytes 3 1 2).2 ≤ (co2_for_bytes 4 1 2).2) :=
  ⟨by norm_num, by norm_num, by norm_num,
    (claim_C1 5 3 4 1 2).2.2 (by norm_num) (by norm_num) (by norm_num)⟩

/-- Claim C2: `grade_from_co2` implements the strict thresholds with inclusive
upper bounds (`A` for `x ≤ 0.20`, `B` for `0.20 < x ≤ 0.70`, `C` for
`0.70 < x ≤ 1.10`, `D` for `1.10 < x ≤ 1.60`, `F` otherwise); in particular
`grade_from_co2 0.20 = A`, `grade_from_co2 0.21 = B`,
`grade_from_co2 1.61 = F`. -/
theorem claim_C2 (x : ℚ) :
    (x ≤ 0.20 → grade_from_co2 x = .A)
    ∧ (0.20 < x → x ≤ 0.70 → grade_from_co2 x = .B)
    ∧ (0.70 < x → x ≤ 1.10 → grade_from_co2 x = .C)
    ∧ (1.10 < x → x ≤ 1.60 → grade_from_co2 x = .D)
    ∧ (1.60 < x → grade_from_co2 x = .F)
    ∧ grade_from_co2 0.20 = .A ∧ grade_from_co2 0.21 = .B
    ∧ grade_from_co2 1.61 = .F := by
  unfold grade_from_co2
  refine ⟨?_, ?_, ?_, ?_, ?_, by norm_num, by norm_num, by norm_num⟩
  all_goals intros
  all_goals split_ifs
  all_goals first | rfl | (exfalso; linarith)

/-- Witness for C2 at `x = 0.21`. -/
theorem claim_C2_witness :
    (0.20 : ℚ) < 0.21 ∧ (0.21 : ℚ) ≤ 0.70 ∧ grade_from_co2 0.21 = .B :=
  ⟨by norm_num, by norm_num, (claim_C2 0.21).2.1 (by norm_num) (by norm_num)⟩

lemma grade_mem_gradeBand (x : ℚ) : gradeBand (grade_from_co2 x) x := by
  unfold grade_from_co2
  split_ifs with h1 h2 h3 h4 <;> simp only [gradeBand] <;>
    first
      | assumption
      | exact ⟨by linarith, by linarith⟩
      | linarith

lemma gradeBand_disjoint {x : ℚ} {g g2 : Grade}
    (h : gradeBand g x) (h2 : gradeBand g2 x) : g = g2 := by
  cases g <;> cases g2 <;> simp only [gradeBand] at h h2 <;>
    first
      | rfl
      | (exfalso
         try obtain ⟨ha, hb⟩ := h
         try obtain ⟨hc, hd⟩ := h2
         linarith)

/-- Claim C9: for every `x ≥ 0` the grading bands are mutually exclusive and
exhaustive — `grade_from_co2 x` lies in its band and it is the only grade
whose band contains `x` — and the grade is monotonically non-increasing in
goodness as `x` increases (`gradeRank` is `0` for `A`, best, through `4` for
`F`, worst). -/
theorem claim_C9 (x y : ℚ) :
    (0 ≤ x →
      gradeBand (grade_from_co2 x) x
      ∧ ∀ g : Grade, gradeBand g x → g = grade_from_co2 x)
    ∧ (0 ≤ x → x ≤ y →
        gradeRank (grade_from_co2 x) ≤ gradeRank (grade_from_co2 y)) := by
  constructor
  · intro _
    exact ⟨grade_mem_gradeBand x,
      fun g hg => gradeBand_disjoint hg (grade_mem_gradeBand x)⟩
  · intro _ hxy
    unfold grade_from_co2
    split_ifs <;> simp only [gradeRank] <;> first | decide | (exfalso; linarith)

/-- Witness for C9 at `x = 0`, `y = 1`. -/
theorem claim_C9_witness :
    (0 : ℚ) ≤ 0 ∧ (0 : ℚ) ≤ 1
    ∧ gradeBand (grade_from_co2 0) 0
    ∧ gradeRank (grade_from_co2 0) ≤ gradeRank (grade_from_co2 1) :=
  ⟨le_refl 0, by norm_num, ((claim_C9 0 1).1 (le_refl 0)).1,
    (claim_C9 0 1).2 (le_refl 0) (by norm_num)⟩

/-! ### Claim about the cache heuristic -/

/-- Claim C3: for every headers mapping (lower-cased keys),
`should_refetch_on_return` returns `false` exactly when none of the
directives `no-cache`, `no-store`, `must-revalidate`, `max-age=0` occurs in
`cache-control`, `no-cache` does not occur in `pragma`, `cache-control` is
present (nonempty), and the first max-age token of the comma-split header
parses to a value `≥ 86400`; in every other situation — a smaller parsed
value, no parsing max-age token, or an absent `cache-control` — it returns
`true`.  In particular `{"cache-control": "max-age=604800"}` gives `false`,
`{"cache-control": "max-age=60"}` gives `true`, `{}` gives `true` and
`{"cache-control": "no-store"}` gives `true`. -/
theorem claim_C3 (hds : List (String × String)) :
    (should_refetch_on_return hds = false ↔
      (pyIn "no-cache" (ccHeader hds) = false
       ∧ pyIn "no-store" (ccHeader hds) = false
       ∧ pyIn "must-revalidate" (ccHeader hds) = false
       ∧ pyIn "max-age=0" (ccHeader hds) = false
       ∧ pyIn "no-cache" (pragmaHeader hds) = false
       ∧ ccHeader hds ≠ ""
       ∧ ∃ n : ℤ, parse_max_age (ccHeader hds) = some n ∧ 86400 ≤ n))
    ∧ should_refetch_on_return [("cache-control", "max-age=604800")] = false
    ∧ should_refetch_on_return [("cache-control", "max-age=60")] = true
    ∧ should_refetch_on_return [] = true
    ∧ should_refetch_on_return [("cache-control", "no-store")] = true := by
  refine ⟨?_, by decide, by decide, by decide, by decide⟩
  unfold should_refetch_on_return
  generalize ccHeader hds = cc
  generalize pragmaHeader hds = pg
  split_ifs with h1 h2 h3
  · -- an explicit no-cache style directive occurs in cache-control
    constructor
    · intro h; exact absurd h (by simp)
    · rintro ⟨c1, c2, c3, c4, -⟩
      simp [c1, c2, c3, c4] at h1
  · -- pragma contains no-cache
    constructor
    · intro h; exact absurd h (by simp)
    · rintro ⟨-, -, -, -, c5, -⟩
      simp [c5] at h2
  · -- cache-control present: the max-age parse decides
    simp only [Bool.or_eq_true, not_or, Bool.not_eq_true] at h1 h2
    obtain ⟨⟨⟨c1, c2⟩, c3⟩, c4⟩ := h1
    rcases hpm : parse_max_age cc with _ | n
    all_goals dsimp only
    · constructor
      · intro h; exact absurd h (by simp)
      · rintro ⟨-, -, -, -, -, -, m, hm, -⟩
        exact absurd hm (by simp)
    · split_ifs with hge
      · exact ⟨fun _ => ⟨c1, c2, c3, c4, h2, h3, n, rfl, hge⟩, fun _ => rfl⟩
      · constructor
        · intro h; exact absurd h (by simp)
        · rintro ⟨-, -, -, -, -, -, m, hm, hmge⟩
          injection hm with hm
          omega
  · -- cache-control absent (empty string)
    constructor
    · intro h; exact absurd h (by simp)
    · rintro ⟨-, -, -, -, -, hne, -⟩
      exact absurd hne h3

/-! ### Claims about the HTTP-only sampler totals -/

/-- Claim C7: `first_visit.bytes` equals the sum of all resources' bytes,
the pre-floor `second_bytes` equals the sum restricted to resources for
which `should_refetch_on_return` is `true`, and when every resource is
refetchable the returned `return_visit.bytes` equals `first_visit.bytes`. -/
theorem claim_C7 (url : String) (resources : List Resource) :
    (run_measurements_http_result url resources).first_visit.bytes
        = (resources.map Resource.bytes).sum
    ∧ second_bytes_raw resources
        = ((resources.filter
            (fun r => should_refetch_on_return r.headers)).map Resource.bytes).sum
    ∧ ((∀ r ∈ resources, should_refetch_on_return r.headers = true) →
        (run_measurements_http_result url resources).return_visit.bytes
          = (run_measurements_http_result url resources).first_visit.bytes) := by
  refine ⟨?_, ?_, ?_⟩
  · simp [run_measurements_http_result, mkVisitResult, first_bytes_of, pySumInt_eq_sum]
  · simp [second_bytes_raw, pySumInt_eq_sum]
  · intro hall
    have hfil : resources.filter (fun r => should_refetch_on_return r.headers)
        = resources := List.filter_eq_self.mpr hall
    have hsec : second_bytes_raw resources = first_bytes_of resources := by
      unfold second_bytes_raw first_bytes_of
      rw [hfil]
    simp only [run_measurements_http_result, mkVisitResult]
    unfold second_bytes_reported
    rw [hsec]
    split_ifs with h
    · exfalso
      obtain ⟨hpos, hlt⟩ := h
      have hq : (0 : ℚ) < (first_bytes_of resources : ℚ) := by exact_mod_cast hpos
      linarith
    · rfl

/-- Witness for C7: a single resource whose headers force a refetch. -/
theorem claim_C7_witness :
    (∀ r ∈ [Resource.mk "u" 5 [("cache-control", "no-store")]],
      should_refetch_on_return r.headers = true)
    ∧ (run_measurements_http_result "u"
        [Resource.mk "u" 5 [("cache-control", "no-store")]]).return_visit.bytes
      = (run_measurements_http_result "u"
          [Resource.mk "u" 5 [("cache-control", "no-store")]]).first_visit.bytes :=
  ⟨by decide,
    (claim_C7 "u" [Resource.mk "u" 5 [("cache-control", "no-store")]]).2.2 (by decide)⟩

/-- Claim C10 (implicit): when every discovered resource's byte count is
non-negative, the reported `return_visit.bytes` never exceeds
`first_visit.bytes`, and when the 0.1 floor fires its clamped value
`int(first_bytes * 0.1)` is still at most `first_bytes`. -/
theorem claim_C10 (url : String) (resources : List Resource)
    (h : ∀ r ∈ resources, 0 ≤ r.bytes) :
    (run_measurements_http_result url resources).return_visit.bytes
      ≤ (run_measurements_http_result url resources).first_visit.bytes
    ∧ (0 < first_bytes_of resources →
        ⌊(first_bytes_of resources : ℚ) * 0.1⌋ ≤ first_bytes_of resources) := by
  have hf0 : 0 ≤ first_bytes_of resources := by
    unfold first_bytes_of
    rw [pySumInt_eq_sum]
    apply List.sum_nonneg
    intro x hx
    obtain ⟨r, hr, rfl⟩ := List.mem_map.mp hx
    exact h r hr
  have hfloor : ⌊(first_bytes_of resources : ℚ) * 0.1⌋ ≤ first_bytes_of resources := by
    have h1 : (⌊(first_bytes_of resources : ℚ) * 0.1⌋ : ℚ)
        ≤ (first_bytes_of resources : ℚ) * 0.1 := Int.floor_le _
    have h2 : (first_bytes_of resources : ℚ) * 0.1 ≤ (first_bytes_of resources : ℚ) := by
      have hq : (0 : ℚ) ≤ (first_bytes_of resources : ℚ) := by exact_mod_cast hf0
      linarith
    exact_mod_cast h1.trans h2
  refine ⟨?_, fun _ => hfloor⟩
  simp only [run_measurements_http_result, mkVisitResult]
  unfold second_bytes_reported
  split_ifs with hc
  · exact hfloor
  · unfold second_bytes_raw first_bytes_of
    rw [pySumInt_eq_sum, pySumInt_eq_sum]
    exact filterMapSum_le _ resources h

/-- Witness for C10: two resources with non-negative byte counts. -/
theorem claim_C10_witness :
    (∀ r ∈ [Resource.mk "u" 5 [("cache-control", "max-age=604800")],
            Resource.mk "v" 95 ([] : List (String × String))], 0 ≤ r.bytes)
    ∧ (run_measurements_http_result "u"
        [Resource.mk "u" 5 [("cache-control", "max-age=604800")],
         Resource.mk "v" 95 ([] : List (String × String))]).return_visit.bytes
      ≤ (run_measurements_http_result "u"
          [Resource.mk "u" 5 [("cache-control", "max-age=604800")],
           Resource.mk "v" 95 ([] : List (String × String))]).first_visit.bytes :=
  ⟨by decide,
    (claim_C10 "u"
      [Resource.mk "u" 5 [("cache-control", "max-age=604800")],
       Resource.mk "v" 95 ([] : List (String × String))] (by decide)).1⟩

/-! ### Claim about the 0.1 safety floor -/

/-- Counterexample to claim C4 as stated: with one 15-byte cacheable
resource the clamp fires (`second_bytes = 0 < 1.5 = first_bytes * 0.1`),
but the reported value is `int(15 * 0.1) = 1`, which is NOT at least
`first_bytes * 0.1 = 1.5` — truncation puts the reported value strictly
below the claimed floor. -/
theorem claim_C4_counterexample :
    first_bytes_of [Resource.mk "u" 15 [("cache-control", "max-age=604800")]] = 15
    ∧ second_bytes_raw [Resource.mk "u" 15 [("cache-control", "max-age=604800")]] = 0
    ∧ ((second_bytes_raw [Resource.mk "u" 15 [("cache-control", "max-age=604800")]] : ℚ)
        < (first_bytes_of [Resource.mk "u" 15 [("cache-control", "max-age=604800")]] : ℚ) * 0.1)
    ∧ second_bytes_reported [Resource.mk "u" 15 [("cache-control", "max-age=604800")]] = 1
    ∧ ¬ ((first_bytes_of [Resource.mk "u" 15 [("cache-control", "max-age=604800")]] : ℚ) * 0.1
          ≤ (second_bytes_reported [Resource.mk "u" 15 [("cache-control", "max-age=604800")]] : ℚ)) := by
  have hf : first_bytes_of [Resource.mk "u" 15 [("cache-control", "max-age=604800")]] = 15 := by
    decide
  have hs : second_bytes_raw [Resource.mk "u" 15 [("cache-control", "max-age=604800")]] = 0 := by
    decide
  have hrep : second_bytes_reported [Resource.mk "u" 15 [("cache-control", "max-age=604800")]] = 1 := by
    unfold second_bytes_reported
    rw [hf, hs]
    norm_num
  refine ⟨hf, hs, ?_, hrep, ?_⟩
  · rw [hf, hs]; norm_num
  · rw [hf, hrep]; norm_num

/-- Claim C4 as amended: when `first_bytes > 0` and the heuristic sum is
below `first_bytes * 0.1`, the reported value is the truncation
`int(first_bytes * 0.1)` — at least the unclamped heuristic value and
greater than `first_bytes * 0.1 - 1`, though truncation can leave it below
`first_bytes * 0.1` itself; and the clamp activates only in that case,
leaving `second_bytes` unchanged whenever
`second_bytes ≥ first_bytes * 0.1` or `first_bytes = 0`. -/
theorem claim_C4_amended (resources : List Resource) :
    (0 < first_bytes_of resources →
      (second_bytes_raw resources : ℚ) < (first_bytes_of resources : ℚ) * 0.1 →
      second_bytes_reported resources = ⌊(first_bytes_of resources : ℚ) * 0.1⌋
      ∧ second_bytes_raw resources ≤ second_bytes_reported resources
      ∧ (first_bytes_of resources : ℚ) * 0.1 - 1 < (second_bytes_reported resources : ℚ))
    ∧ ((first_bytes_of resources : ℚ) * 0.1 ≤ (second_bytes_raw resources : ℚ) →
        second_bytes_reported resources = second_bytes_raw resources)
    ∧ (first_bytes_of resources = 0 →
        second_bytes_reported resources = second_bytes_raw resources) := by
  refine ⟨?_, ?_, ?_⟩
  · intro hpos hlt
    have hrep : second_bytes_reported resources
        = ⌊(first_bytes_of resources : ℚ) * 0.1⌋ := by
      unfold second_bytes_reported
      rw [if_pos ⟨hpos, hlt⟩]
    refine ⟨hrep, ?_, ?_⟩
    · rw [hrep]
      exact Int.le_floor.mpr (le_of_lt hlt)
    · rw [hrep]
      have := Int.sub_one_lt_floor ((first_bytes_of resources : ℚ) * 0.1)
      linarith
  · intro hge
    unfold second_bytes_reported
    rw [if_neg]
    rintro ⟨-, hlt⟩
    linarith
  · intro hzero
    unfold second_bytes_reported
    rw [if_neg]
    rintro ⟨hpos, -⟩
    omega

/-- Witness for C4 (amended) at a single 15-byte cacheable resource. -/
theorem claim_C4_amended_witness :
    0 < first_bytes_of [Resource.mk "u" 15 [("cache-control", "max-age=604800")]]
    ∧ ((second_bytes_raw [Resource.mk "u" 15 [("cache-control", "max-age=604800")]] : ℚ)
        < (first_bytes_of [Resource.mk "u" 15 [("cache-control", "max-age=604800")]] : ℚ) * 0.1)
    ∧ second_bytes_reported [Resource.mk "u" 15 [("cache-control", "max-age=604800")]]
        = ⌊(first_bytes_of [Resource.mk "u" 15 [("cache-control", "max-age=604800")]] : ℚ) * 0.1⌋ :=
  ⟨by decide,
    by
      rw [show second_bytes_raw [Resource.mk "u" 15 [("cache-control", "max-age=604800")]] = 0
            from by decide,
          show first_bytes_of [Resource.mk "u" 15 [("cache-control", "max-age=604800")]] = 15
            from by decide]
      norm_num,
    ((claim_C4_amended [Resource.mk "u" 15 [("cache-control", "max-age=604800")]]).1
      (by decide)
      (by
        rw [show second_bytes_raw [Resource.mk "u" 15 [("cache-control", "max-age=604800")]] = 0
              from by decide,
            show first_bytes_of [Resource.mk "u" 15 [("cache-control", "max-age=604800")]] = 15
              from by decide]
        norm_num)).1⟩

/-! ### Claims about byte non-negativity and the per-response handler -/

/-- Checks that an optional raw `content-length` header value, when present
and parseable as an int, is non-negative. -/
def clOptOk (content_length : Option String) : Bool :=
  match content_length with
  | none => true
  | some s =>
    match parsePyInt s.toList with
    | some n => decide (0 ≤ n)
    | none => true

/-- Checks that the `content-length` entry of a headers list, when present
and parseable as an int, is non-negative. -/
def clNonNeg (headers : List (String × String)) : Bool :=
  clOptOk (headers.lookup "content-length")

/-- `clNonNeg` for the HEAD response of `fetch_resource_metadata`. -/
def headRespClOk (head_resp : Option (List (String × String))) : Bool :=
  match head_resp with
  | none => true
  | some hh => clNonNeg (pyLowerKeys hh)

/-- `clNonNeg` for the GET response of `fetch_resource_metadata`. -/
def getRespClOk (get_resp : Option (List (String × String) × ℕ)) : Bool :=
  match get_resp with
  | none => true
  | some gr => clNonNeg (pyLowerKeys gr.1)

lemma clLengthOrZero_nonneg (content_length : Option String)
    (h : clOptOk content_length = true) : 0 ≤ clLengthOrZero content_length := by
  unfold clOptOk at h
  unfold clLengthOrZero
  cases content_length with
  | none => exact le_refl 0
  | some s =>
    dsimp only at h ⊢
    by_cases hne : s = ""
    · simp [hne]
    · rw [if_pos hne]
      cases hp : parsePyInt s.toList with
      | none => simp
      | some n =>
        rw [hp] at h
        dsimp only at h
        simp only [Option.getD_some]
        exact of_decide_eq_true h

lemma getLengthOf_nonneg (headers2 : List (String × String)) (b : ℕ)
    (h : clNonNeg headers2 = true) : 0 ≤ getLengthOf headers2 b := by
  unfold clNonNeg clOptOk at h
  unfold getLengthOf
  cases hl : headers2.lookup "content-length" with
  | none => simp
  | some cl =>
    rw [hl] at h
    dsimp only at h ⊢
    by_cases hne : cl = ""
    · simp [hne]
    · rw [if_pos hne]
      cases hp : parsePyInt cl.toList with
      | none => simp
      | some n =>
        rw [hp] at h
        dsimp only at h
        simp only [Option.getD_some]
        exact of_decide_eq_true h

/-- Counterexample to claim C5 as stated: a HEAD response carrying
`content-length: "-5"` makes `fetch_resource_metadata` return the negative
byte count `-5` — `int("-5")` parses, is nonzero, and is returned as-is, so
the produced bytes value is NOT non-negative for arbitrary header values. -/
theorem claim_C5_counterexample :
    (fetch_resource_metadata (some [("Content-Length", "-5")]) none).1 = -5
    ∧ (fetch_resource_metadata (some [("Content-Length", "-5")]) none).1 < 0 := by
  decide

/-- Claim C5 as amended: whenever every `content-length` value that parses
as an int parses to a non-negative one, all bytes values produced by the
samplers are non-negative, and a failed fetch of a single resource
contributes exactly 0 bytes instead of aborting (a failed HEAD request
yields `(0, {})`; a failed body read with no usable header contributes 0). -/
theorem claim_C5_amended (head_resp : Option (List (String × String)))
    (get_resp : Option (List (String × String) × ℕ))
    (res_url : String) (content_length : Option String) (body : Option ℕ) :
    (headRespClOk head_resp = true → getRespClOk get_resp = true →
      0 ≤ (fetch_resource_metadata head_resp get_resp).1)
    ∧ (clOptOk content_length = true →
        0 ≤ handle_response_length res_url content_length body)
    ∧ (fetch_resource_metadata none get_resp).1 = 0
    ∧ handle_response_length res_url none none = 0 := by
  refine ⟨?_, ?_, ?_, ?_⟩
  · intro hhead hget
    unfold fetch_resource_metadata
    cases head_resp with
    | none => exact le_refl 0
    | some hh =>
      have hcl : clNonNeg (pyLowerKeys hh) = true := hhead
      dsimp only
      by_cases hz : contentLengthOrZero (pyLowerKeys hh) = 0
      · rw [if_pos hz]
        cases get_resp with
        | none => exact le_refl 0
        | some gr =>
          have hgr : clNonNeg (pyLowerKeys gr.1) = true := hget
          dsimp only
          exact getLengthOf_nonneg (pyLowerKeys gr.1) gr.2 hgr
      · rw [if_neg hz]
        exact clLengthOrZero_nonneg _ hcl
  · intro hok
    unfold handle_response_length
    by_cases hurl : (pyStartsWith res_url "data:" || pyStartsWith res_url "about:") = true
    · rw [if_pos hurl]
    · rw [if_neg hurl]
      by_cases hz : clLengthOrZero content_length = 0
      · rw [if_pos hz]
        cases body with
        | none => exact le_refl 0
        | some b => exact Int.natCast_nonneg b
      · rw [if_neg hz]
        exact clLengthOrZero_nonneg content_length hok
  · rfl
  · unfold handle_response_length
    split_ifs <;> rfl

/-- Witness for C5 (amended) at concrete responses. -/
theorem claim_C5_witness :
    headRespClOk (some [("Content-Length", "123")]) = true
    ∧ getRespClOk (none : Option (List (String × String) × ℕ)) = true
    ∧ clOptOk (some "7") = true
    ∧ 0 ≤ (fetch_resource_metadata (some [("Content-Length", "123")]) none).1
    ∧ 0 ≤ handle_response_length "https://a/x" (some "7") (some 3) :=
  ⟨by decide, by decide, by decide,
    (claim_C5_amended (some [("Content-Length", "123")]) none "https://a/x"
      (some "7") (some 3)).1 (by decide) (by decide),
    (claim_C5_amended (some [("Content-Length", "123")]) none "https://a/x"
      (some "7") (some 3)).2.1 (by decide)⟩

/-- The fall-through condition of the amended claim C6: the `content-length`
header is absent, empty, unparseable, or parses to 0 — exactly the
situations in which the source reads the response body instead. -/
def clFallsThrough (content_length : Option String) : Bool :=
  match content_length with
  | none => true
  | some s =>
    if s = "" then true
    else
      match parsePyInt s.toList with
      | some n => decide (n = 0)
      | none => true

/-- Counterexample to claim C6 as stated: a response with header
`content-length: "0"` and an actual 7-byte body contributes 7, the body
length, although the header is present and parses as the integer 0 — the
source falls back to the body whenever the parsed length is 0, not only
when the header is absent or unparseable. -/
theorem claim_C6_counterexample :
    handle_response_length "https://a/x" (some "0") (some 7) = 7
    ∧ parsePyInt "0".toList = some 0
    ∧ (7 : ℤ) ≠ 0 := by
  decide

lemma clLengthOrZero_eq_zero_of_fallsThrough (content_length : Option String)
    (h : clFallsThrough content_length = true) : clLengthOrZero content_length = 0 := by
  unfold clFallsThrough at h
  unfold clLengthOrZero
  cases content_length with
  | none => rfl
  | some s =>
    dsimp only at h ⊢
    by_cases hne : s = ""
    · simp [hne]
    · rw [if_pos hne]
      rw [if_neg hne] at h
      cases hp : parsePyInt s.toList with
      | none => simp
      | some n =>
        rw [hp] at h
        dsimp only at h
        simp only [Option.getD_some]
        exact of_decide_eq_true h

/-- Claim C6 as amended: a response whose request URL starts with `data:` or
`about:` contributes 0 bytes regardless of its payload; for every other
response the byte length used is the `content-length` header value whenever
that header is present, nonempty, and parses to a NONZERO integer; when the
header is absent, empty, unparseable, or parses to 0, the actual response
body length is used (0 if the body read fails). -/
theorem claim_C6_amended (res_url : String) (content_length : Option String)
    (body : Option ℕ) :
    (pyStartsWith res_url "data:" = true ∨ pyStartsWith res_url "about:" = true →
      handle_response_length res_url content_length body = 0)
    ∧ (pyStartsWith res_url "data:" = false → pyStartsWith res_url "about:" = false →
        (∀ s n, content_length = some s → s ≠ "" → parsePyInt s.toList = some n →
          n ≠ 0 → handle_response_length res_url content_length body = n)
        ∧ (clFallsThrough content_length = true →
            handle_response_length res_url content_length body = ((body.getD 0 : ℕ) : ℤ))) := by
  constructor
  · intro h
    unfold handle_response_length
    rw [if_pos]
    rcases h with h | h <;> simp [h]
  · intro hd ha
    have hurl : (pyStartsWith res_url "data:" || pyStartsWith res_url "about:") = false := by
      simp [hd, ha]
    constructor
    · rintro s n rfl hne hp hn0
      have hlen : clLengthOrZero (some s) = n := by
        unfold clLengthOrZero
        dsimp only
        rw [if_pos hne, hp]
        rfl
      unfold handle_response_length
      rw [hurl, if_neg (by simp), hlen, if_neg hn0]
    · intro hft
      unfold handle_response_length
      rw [hurl]
      rw [if_neg (by simp), if_pos (clLengthOrZero_eq_zero_of_fallsThrough _ hft)]
      cases body <;> rfl

/-- Witness for C6 (amended): a plain https response with
`content-length: "5"` and a 9-byte body contributes 5, and a `data:`
response contributes 0. -/
theorem claim_C6_witness :
    pyStartsWith "https://a/y" "data:" = false
    ∧ pyStartsWith "https://a/y" "about:" = false
    ∧ ("5" : String) ≠ "" ∧ parsePyInt "5".toList = some 5 ∧ (5 : ℤ) ≠ 0
    ∧ handle_response_length "https://a/y" (some "5") (some 9) = 5
    ∧ pyStartsWith "data:text/plain,hi" "data:" = true
    ∧ handle_response_length "data:text/plain,hi" (some "5") (some 9) = 0 :=
  ⟨by decide, by decide, by decide, by decide, by decide,
    ((claim_C6_amended "https://a/y" (some "5") (some 9)).2 (by decide) (by decide)).1
      "5" 5 rfl (by decide) (by decide) (by decide),
    by decide,
    (claim_C6_amended "data:text/plain,hi" (some "5") (some 9)).1 (Or.inl (by decide))⟩

/-! ### Claim about the orchestrator fallback -/

/-- Claim C8: `run_measurements` returns the browser sampler's result (mode
`"playwright"`) whenever the browser path succeeds; on any exception from
the browser path it returns the HTTP-only sampler's result instead (mode
`"http-only"` when the document fetch succeeds); and when the HTTP-only
document fetch also fails, the error propagates and no measurement result
is produced. -/
theorem claim_C8 (url : String) (browser : Except String (ℤ × ℤ))
    (doc_fetch : Except String (List Resource)) :
    (∀ fs, browser = Except.ok fs →
      run_measurements url browser doc_fetch = run_measurements_playwright url browser
      ∧ ∃ r, run_measurements url browser doc_fetch = Except.ok r
          ∧ r.model.mode = "playwright")
    ∧ (∀ e, browser = Except.error e →
        run_measurements url browser doc_fetch = run_measurements_http url doc_fetch
        ∧ (∀ rs, doc_fetch = Except.ok rs →
            run_measurements url browser doc_fetch
              = Except.ok (run_measurements_http_result url rs)
            ∧ (run_measurements_http_result url rs).model.mode = "http-only")
        ∧ (∀ e2, doc_fetch = Except.error e2 →
            run_measurements url browser doc_fetch = Except.error e2)) := by
  constructor
  · rintro fs rfl
    exact ⟨rfl, _, rfl, rfl⟩
  · rintro e rfl
    refine ⟨rfl, ?_, ?_⟩
    · rintro rs rfl
      exact ⟨rfl, rfl⟩
    · rintro e2 rfl
      rfl

/-- Witness for C8: a succeeding browser path yields mode `"playwright"`;
with a failing browser path and a failing document fetch the error
propagates. -/
theorem claim_C8_witness :
    (Except.ok ((3 : ℤ), (2 : ℤ)) : Except String (ℤ × ℤ)) = Except.ok (3, 2)
    ∧ (∃ r, run_measurements "u" (Except.ok (3, 2)) (Except.error "boom") = Except.ok r
        ∧ r.model.mode = "playwright")
    ∧ (Except.error "x" : Except String (ℤ × ℤ)) = Except.error "x"
    ∧ run_measurements "u" (Except.error "x") (Except.error "boom") = Except.error "boom" :=
  ⟨rfl,
    ((claim_C8 "u" (Except.ok (3, 2)) (Except.error "boom")).1 (3, 2) rfl).2,
    rfl,
    ((claim_C8 "u" (Except.error "x") (Except.error "boom")).2 "x" rfl).2.2 "boom" rfl⟩
